import Mathlib

/-!
A shallow embedding of src/cli_server.py: a minimal HTTP echo server.

The Python program has two classes, SimpleBoilerAI (a pure echo agent) and
BoilerAICLIServer (session state: api_key, provider, cli_agent, initialized),
plus a RequestHandler with do_GET, do_POST and do_OPTIONS methods.

JSON values are modelled by the inductive JVal.  The outcomes of the two
standard-library calls that the handler makes on raw request bytes
(int() on the Content-Length header, and body.decode() followed by
json.loads()) are inputs to the embedded handler: pyIntH embeds int() applied
to the optional header string, and LoadsOutcome carries the decoded JSON value
or the decoding/parsing exception exactly as the handler would observe it.
Python exceptions inside the do_POST try-block are embedded as Except String,
the String being the str(e) text that the handler serializes into the 500
response.
-/

/-- A JSON value, as produced by json.loads: the Python handler receives one
of these (dict, list, str, int, bool, None) for the request body. -/
inductive JVal where
  | jnull : JVal
  | jbool : Bool → JVal
  | jnum : Int → JVal
  | jstr : String → JVal
  | jarr : List JVal → JVal
  | jobj : List (String × JVal) → JVal

/-- The Python type name of a JSON value, as it appears in exception texts. -/
def JVal.typeName : JVal → String
  | .jnull => "NoneType"
  | .jbool _ => "bool"
  | .jnum _ => "int"
  | .jstr _ => "str"
  | .jarr _ => "list"
  | .jobj _ => "dict"

/-- Whether the value is a JSON object (a Python dict). -/
def JVal.isObj : JVal → Bool
  | .jobj _ => true
  | _ => false

/-- Field lookup inside a JSON object; none for non-objects or missing keys. -/
def JVal.lookupJ : JVal → String → Option JVal
  | .jobj fields, key => fields.lookup key
  | _, _ => none

/-- class SimpleBoilerAI: holds the api_key and the provider set by
__init__ (src/cli_server.py lines 15-21). -/
structure SimpleBoilerAI where
  api_key : String
  provider : String
deriving DecidableEq

/-- SimpleBoilerAI.__init__(api_key): stores the key and sets
provider = "gemini" (src/cli_server.py lines 18-21). -/
def SimpleBoilerAI.new (api_key : String) : SimpleBoilerAI :=
  { api_key := api_key, provider := "gemini" }

/-- SimpleBoilerAI.process_query (src/cli_server.py lines 23-30): echoes the
query back; api_key_set is the Python truthiness bool(self.api_key), i.e.
whether the key string is non-empty. -/
def SimpleBoilerAI.process_query (a : SimpleBoilerAI) (query : JVal) : JVal :=
  JVal.jobj
    [("success", JVal.jbool true),
     ("response", query),
     ("provider", JVal.jstr a.provider),
     ("api_key_set", JVal.jbool (a.api_key != ""))]

/-- class BoilerAICLIServer: the session state created once at startup
(src/cli_server.py lines 32-39). -/
structure BoilerAICLIServer where
  api_key : Option String
  provider : String
  cli_agent : Option SimpleBoilerAI
  initialized : Bool
deriving DecidableEq

/-- BoilerAICLIServer.__init__ (src/cli_server.py lines 35-39). -/
def BoilerAICLIServer.new : BoilerAICLIServer :=
  { api_key := none, provider := "gemini", cli_agent := none,
    initialized := false }

/-- BoilerAICLIServer.process_query (src/cli_server.py lines 81-89):
dispatches to the agent when cli_agent is not None (a class instance is
always truthy), else returns the fixed failure envelope. -/
def BoilerAICLIServer.process_query (s : BoilerAICLIServer) (query : JVal) :
    JVal :=
  match s.cli_agent with
  | some agent => agent.process_query query
  | none =>
      JVal.jobj
        [("success", JVal.jbool false),
         ("error", JVal.jstr "CLI not initialized")]

/-- BoilerAICLIServer.process_query as a state transformer: the method body
contains no assignment to self, so the post-state is the pre-state. -/
def BoilerAICLIServer.process_query_st (s : BoilerAICLIServer) (query : JVal) :
    JVal × BoilerAICLIServer :=
  (s.process_query query, s)

/-- SimpleBoilerAI.process_query as a state transformer: the method body
contains no assignment to self, so the post-state is the pre-state. -/
def SimpleBoilerAI.process_query_st (a : SimpleBoilerAI) (query : JVal) :
    JVal × SimpleBoilerAI :=
  (a.process_query query, a)

/-- Python whitespace for str.strip() and int(), restricted to the ASCII
whitespace characters. -/
def pyIsSpace (c : Char) : Bool :=
  c == ' ' || c == '\t' || c == '\n' || c == '\r' ||
    c == '\x0b' || c == '\x0c'

/-- Python str.strip() with no argument: remove leading and trailing
whitespace. -/
def pyStrip (s : String) : String :=
  String.mk (((s.data.dropWhile pyIsSpace).reverse.dropWhile pyIsSpace).reverse)

/-- Python str.lower(). -/
def pyLower (s : String) : String :=
  String.mk (s.data.map Char.toLower)

/-- Python str.startswith(pre). -/
def pyStartsWith (s pre : String) : Bool :=
  pre.data.isPrefixOf s.data

/-- The digit run of a Python int literal: all characters must be decimal
digits. -/
def pyDigits (acc : Nat) : List Char → Option Nat
  | [] => some acc
  | c :: cs =>
      if c.isDigit then pyDigits (10 * acc + (c.toNat - '0'.toNat)) cs
      else none

/-- Python int(str): strip whitespace, optional sign, a non-empty run of
decimal digits; none models the ValueError. -/
def pyIntOfString (s : String) : Option Int :=
  match (pyStrip s).data with
  | [] => none
  | '-' :: cs =>
      if cs.isEmpty then none
      else (pyDigits 0 cs).map (fun n => -(n : Int))
  | '+' :: cs =>
      if cs.isEmpty then none
      else (pyDigits 0 cs).map (fun n => (n : Int))
  | cs => (pyDigits 0 cs).map (fun n => (n : Int))

/-- The interactive key prompt loop of setup_api_key (src/cli_server.py
lines 60-71), over the stream of stdin lines.  Each iteration strips the
entered line; an empty line re-prompts; a key not starting with AIzaSy asks
for confirmation (stripped, lowercased) and re-prompts unless the answer is
y.  Returns none when stdin is exhausted (input() raises EOFError). -/
def promptLoop (provider : String) : List String → Option String
  | [] => none
  | line :: rest =>
      let key := pyStrip line
      if key = "" then promptLoop provider rest
      else if provider = "gemini" && !(pyStartsWith key "AIzaSy") then
        match rest with
        | [] => none
        | confirm :: rest2 =>
            if pyLower (pyStrip confirm) = "y" then some key
            else promptLoop provider rest2
      else some key

/-- BoilerAICLIServer.setup_api_key (src/cli_server.py lines 41-79).
Inputs beyond the state: the value of os.getenv with default "" (env), and
the stdin line stream.  The stripped environment key, when non-empty, is
taken without prompting; otherwise the interactive loop runs.  On success
the method stores the key, builds the agent, sets initialized and returns
True; none models the EOFError escape when stdin is exhausted. -/
def BoilerAICLIServer.setup_api_key (s : BoilerAICLIServer) (env : String)
    (stdin : List String) : Option (Bool × BoilerAICLIServer) :=
  let env_key := pyStrip env
  let keyOpt := if env_key != "" then some env_key
                else promptLoop s.provider stdin
  match keyOpt with
  | none => none
  | some key =>
      some (true,
        { s with api_key := some key,
                 cli_agent := some (SimpleBoilerAI.new key),
                 initialized := true })

/-- An HTTP response as the handler emits one: the status code sent by
send_response, the headers sent explicitly by send_header, and the JSON
value serialized into the body by json.dumps (none when no body is
written). -/
structure HttpResponse where
  status : Nat
  headers : List (String × String)
  body : Option JVal

/-- The Content-Type header the handler sends on JSON responses. -/
def ctJson : String × String := ("Content-Type", "application/json")

/-- The permissive CORS origin header sent on every non-404 response. -/
def corsOrigin : String × String := ("Access-Control-Allow-Origin", "*")

/-- RequestHandler.do_OPTIONS (src/cli_server.py lines 101-107): 200 with
the three CORS headers and no body, whatever the request path. -/
def do_OPTIONS (_path : String) : HttpResponse :=
  { status := 200,
    headers := [corsOrigin,
                ("Access-Control-Allow-Methods", "GET, POST, OPTIONS"),
                ("Access-Control-Allow-Headers", "Content-Type")],
    body := none }

/-- RequestHandler.do_GET (src/cli_server.py lines 109-126): /health
returns the status snapshot of the session state; any other path 404 with
no explicit headers and no body. -/
def do_GET (s : BoilerAICLIServer) (path : String) : HttpResponse :=
  if path = "/health" then
    { status := 200,
      headers := [ctJson, corsOrigin],
      body := some (JVal.jobj
        [("status", JVal.jstr "ok"),
         ("initialized", JVal.jbool s.initialized),
         ("provider", JVal.jstr s.provider),
         ("mode", JVal.jstr "echo")]) }
  else
    { status := 404, headers := [], body := none }

/-- int() applied to the Content-Length header value (src/cli_server.py
line 137): a missing header reads as None and int(None) raises TypeError; a
present header parses like a Python int literal or raises ValueError.  The
String in the error is the str(e) text (quotes of the original message
elided). -/
def pyIntH : Option String → Except String Int
  | none =>
      Except.error
        "int() argument must be a string, a bytes-like object or a real number, not NoneType"
  | some h =>
      match pyIntOfString h with
      | some n => Except.ok n
      | none =>
          Except.error ("invalid literal for int() with base 10: " ++ h)

/-- The observed outcome of body.decode() followed by json.loads(body)
(src/cli_server.py line 139): the parsed value, a JSONDecodeError with its
message and position fields, or a UnicodeDecodeError from .decode(). -/
inductive LoadsOutcome where
  | ok : JVal → LoadsOutcome
  | jsonError : String → Nat → Nat → Nat → LoadsOutcome
  | decodeError : String → LoadsOutcome

/-- str() of a json.JSONDecodeError: the message followed by the literal
rendering of line, column and char position, hence never empty. -/
def strOfJsonError (msg : String) (line col pos : Nat) : String :=
  msg ++ ": line " ++ Nat.repr line ++ " column " ++ Nat.repr col ++
    " (char " ++ Nat.repr pos ++ ")"

/-- The json.loads call as seen inside the try-block. -/
def loadsResult : LoadsOutcome → Except String JVal
  | .ok v => Except.ok v
  | .jsonError msg line col pos =>
      Except.error (strOfJsonError msg line col pos)
  | .decodeError msg => Except.error msg

/-- data.get applied to a key and a default (src/cli_server.py line 141):
dict lookup with a default; on a non-dict the attribute access raises
AttributeError. -/
def dictGet (data : JVal) (key : String) (dfl : JVal) : Except String JVal :=
  match data with
  | .jobj fields => Except.ok ((fields.lookup key).getD dfl)
  | v => Except.error (v.typeName ++ " object has no attribute get")

/-- query[:100] in the receive log line (src/cli_server.py line 144):
slicing succeeds on str and list, raises TypeError otherwise. -/
def pySlice100 : JVal → Except String Unit
  | .jstr _ => Except.ok ()
  | .jarr _ => Except.ok ()
  | .jobj _ => Except.error "unhashable type: slice"
  | v => Except.error (v.typeName ++ " object is not subscriptable")

/-- len(x) in the log lines (src/cli_server.py lines 144, 153): defined on
str, list and dict, TypeError otherwise. -/
def pyLen : JVal → Except String Nat
  | .jstr t => Except.ok t.length
  | .jarr xs => Except.ok xs.length
  | .jobj fields => Except.ok fields.length
  | v => Except.error ("object of type " ++ v.typeName ++ " has no len()")

/-- The body of the try-block of RequestHandler.do_POST on the /query path
(src/cli_server.py lines 135-160), as the sequence of its fallible steps:
parse the Content-Length header, obtain the decoded JSON, take the query
field with default "", evaluate the two log lines, process the query. -/
def tryQueryBody (s : BoilerAICLIServer) (clHeader : Option String)
    (loads : LoadsOutcome) : Except String JVal := do
  let _ ← pyIntH clHeader
  let data ← loadsResult loads
  let query ← dictGet data "query" (JVal.jstr "")
  let _ ← pySlice100 query
  let _ ← pyLen query
  let result := s.process_query query
  let responseText ← dictGet result "response" (JVal.jstr "")
  let _ ← pyLen responseText
  pure result

/-- RequestHandler.do_POST (src/cli_server.py lines 128-172): 404 off
/query; otherwise the try-block result is sent as 200, and any exception e
is caught and sent as 500 with body success=false, error=str(e). -/
def do_POST (s : BoilerAICLIServer) (path : String) (clHeader : Option String)
    (loads : LoadsOutcome) : HttpResponse :=
  if path != "/query" then
    { status := 404, headers := [], body := none }
  else
    match tryQueryBody s clHeader loads with
    | Except.ok result =>
        { status := 200, headers := [ctJson, corsOrigin],
          body := some result }
    | Except.error e =>
        { status := 500, headers := [ctJson, corsOrigin],
          body := some (JVal.jobj
            [("success", JVal.jbool false),
             ("error", JVal.jstr e)]) }

/-- A string append is non-empty when its right part is. -/
theorem str_append_ne_right (a : String) {b : String} (h : b ≠ "") :
    a ++ b ≠ "" := by
  intro hc
  apply h
  have hd := congrArg String.data hc
  rw [String.data_append] at hd
  exact String.ext (List.append_eq_nil.mp hd).2

/-- A string append is non-empty when its left part is. -/
theorem str_append_ne_left {a : String} (b : String) (h : a ≠ "") :
    a ++ b ≠ "" := by
  intro hc
  apply h
  have hd := congrArg String.data hc
  rw [String.data_append] at hd
  exact String.ext (List.append_eq_nil.mp hd).1

/-- The rendered text of a JSONDecodeError is never empty: it ends in the
literal closing parenthesis. -/
theorem strOfJsonError_ne (msg : String) (line col pos : Nat) :
    strOfJsonError msg line col pos ≠ "" := by
  unfold strOfJsonError
  exact str_append_ne_right _ (by decide)

/-- Every error text produced by pyIntH is non-empty. -/
theorem pyIntH_error_ne {h : Option String} {e : String}
    (he : pyIntH h = Except.error e) : e ≠ "" := by
  cases h with
  | none =>
      simp only [pyIntH] at he
      injection he with h1
      rw [← h1]
      decide
  | some t =>
      simp only [pyIntH] at he
      split at he
      · simp at he
      · injection he with h1
        rw [← h1]
        exact str_append_ne_left _ (by decide)

/-- A key returned by the interactive prompt loop is never empty: every
accepting branch returns the stripped line only after checking it against
the empty string. -/
theorem promptLoop_ne {p : String} (stdin : List String) :
    ∀ {k : String}, promptLoop p stdin = some k → k ≠ "" := by
  induction stdin using promptLoop.induct p with
  | case1 =>
      intro k hk
      simp [promptLoop] at hk
  | case2 line rest key hkey =>
      rename_i ih
      intro k hk
      have h2 : pyStrip line = "" := hkey
      rw [promptLoop.eq_def] at hk
      simp only [h2, if_pos] at hk
      exact ih hk
  | case3 line key hkey =>
      rename_i hwarn
      intro k hk
      have h2 : ¬ pyStrip line = "" := hkey
      have h3 : (decide (p = "gemini") && !pyStartsWith (pyStrip line) "AIzaSy")
          = true := hwarn
      rw [promptLoop.eq_def] at hk
      simp [h2, h3] at hk
  | case4 line key hkey hwarn confirm rest2 =>
      rename_i hy
      intro k hk
      have h2 : ¬ pyStrip line = "" := hkey
      have h3 : (decide (p = "gemini") && !pyStartsWith (pyStrip line) "AIzaSy")
          = true := hwarn
      rw [promptLoop.eq_def] at hk
      simp [h2, h3, hy] at hk
      rw [← hk]
      exact h2
  | case5 line key hkey hwarn confirm rest2 hny =>
      rename_i ih
      intro k hk
      have h2 : ¬ pyStrip line = "" := hkey
      have h3 : (decide (p = "gemini") && !pyStartsWith (pyStrip line) "AIzaSy")
          = true := hwarn
      rw [promptLoop.eq_def] at hk
      simp [h2, h3, hny] at hk
      exact ih hk
  | case6 line rest key hkey =>
      rename_i hwarn
      intro k hk
      have h2 : ¬ pyStrip line = "" := hkey
      have h3 : ¬ (decide (p = "gemini") && !pyStartsWith (pyStrip line) "AIzaSy")
          = true := hwarn
      rw [promptLoop.eq_def] at hk
      simp [h2, h3] at hk
      rw [← hk]
      exact h2

/-- A successful setup_api_key call returns True and a state holding some
non-empty key, the agent built from it, and initialized = true. -/
theorem setup_api_key_some {s : BoilerAICLIServer} {env : String}
    {stdin : List String} {b : Bool} {s' : BoilerAICLIServer}
    (h : s.setup_api_key env stdin = some (b, s')) :
    b = true ∧ ∃ k, k ≠ "" ∧
      s' = { s with api_key := some k,
                    cli_agent := some (SimpleBoilerAI.new k),
                    initialized := true } := by
  simp only [BoilerAICLIServer.setup_api_key] at h
  by_cases he : (pyStrip env != "") = true
  · rw [if_pos he] at h
    simp only [Option.some.injEq, Prod.mk.injEq] at h
    exact ⟨h.1.symm, pyStrip env, bne_iff_ne.mp he, h.2.symm⟩
  · rw [if_neg he] at h
    cases hp : promptLoop s.provider stdin with
    | none =>
        rw [hp] at h
        cases h
    | some k =>
        rw [hp] at h
        simp only [Option.some.injEq, Prod.mk.injEq] at h
        exact ⟨h.1.symm, k, promptLoop_ne stdin hp, h.2.symm⟩


/-- C2: for every string q, when the session holds no CLI agent (setup has
not completed), process_query returns exactly the failure envelope
success=false, error="CLI not initialized". -/
theorem C2_uninitialized_query_fails (s : BoilerAICLIServer) (q : String)
    (h : s.cli_agent = none) :
    s.process_query (JVal.jstr q) =
      JVal.jobj [("success", JVal.jbool false),
                 ("error", JVal.jstr "CLI not initialized")] := by
  simp [BoilerAICLIServer.process_query, h]

/-- Witness for C2 at the freshly constructed server and the query hello. -/
theorem C2_uninitialized_query_fails_witness :
    BoilerAICLIServer.new.process_query (JVal.jstr "hello") =
      JVal.jobj [("success", JVal.jbool false),
                 ("error", JVal.jstr "CLI not initialized")] :=
  C2_uninitialized_query_fails BoilerAICLIServer.new "hello" rfl

/-- C5: every GET /health request returns 200 with a JSON body holding
status, initialized, provider and mode, the initialized field being the
session state's current flag. -/
theorem C5_health_snapshot (s : BoilerAICLIServer) :
    do_GET s "/health" =
      { status := 200, headers := [ctJson, corsOrigin],
        body := some (JVal.jobj
          [("status", JVal.jstr "ok"),
           ("initialized", JVal.jbool s.initialized),
           ("provider", JVal.jstr s.provider),
           ("mode", JVal.jstr "echo")]) } := by
  simp [do_GET]

/-- C7: a GET off /health and a POST off /query both return 404 with an
empty body and no explicit headers. -/
theorem C7_unknown_path_404 (s : BoilerAICLIServer) (gpath ppath : String)
    (clh : Option String) (loads : LoadsOutcome)
    (hg : gpath ≠ "/health") (hp : ppath ≠ "/query") :
    do_GET s gpath = { status := 404, headers := [], body := none } ∧
    do_POST s ppath clh loads =
      { status := 404, headers := [], body := none } := by
  constructor
  · simp [do_GET, hg]
  · simp [do_POST, hp]

/-- Witness for C7 at the paths /nope (GET) and /other (POST). -/
theorem C7_unknown_path_404_witness :
    do_GET BoilerAICLIServer.new "/nope" =
      { status := 404, headers := [], body := none } ∧
    do_POST BoilerAICLIServer.new "/other" none (LoadsOutcome.ok JVal.jnull) =
      { status := 404, headers := [], body := none } :=
  C7_unknown_path_404 BoilerAICLIServer.new "/nope" "/other" none
    (LoadsOutcome.ok JVal.jnull) (by decide) (by decide)

/-- C8: every OPTIONS request, whatever its path, gets 200 with the three
permissive CORS headers and no body. -/
theorem C8_options_cors (path : String) :
    do_OPTIONS path =
      { status := 200,
        headers := [corsOrigin,
                    ("Access-Control-Allow-Methods", "GET, POST, OPTIONS"),
                    ("Access-Control-Allow-Headers", "Content-Type")],
        body := none } := rfl

/-- C9: process_query mutates no session state: the post-state of the
server method equals the pre-state field by field (api_key, provider,
initialized, cli_agent), and likewise for the agent method. -/
theorem C9_process_query_frame (s : BoilerAICLIServer) (a : SimpleBoilerAI)
    (q : JVal) :
    (s.process_query_st q).2.api_key = s.api_key ∧
    (s.process_query_st q).2.provider = s.provider ∧
    (s.process_query_st q).2.initialized = s.initialized ∧
    (s.process_query_st q).2.cli_agent = s.cli_agent ∧
    (a.process_query_st q).2 = a :=
  ⟨rfl, rfl, rfl, rfl, rfl⟩

/-- C3: a POST /query whose Content-Length header is missing, or whose body
fails JSON parsing, is caught and answered with exactly one HTTP 500
response whose JSON body is success=false, error=m for a non-empty m. -/
theorem C3_malformed_body_500 (s : BoilerAICLIServer) (clh : Option String)
    (loads : LoadsOutcome)
    (h : clh = none ∨
      ∃ msg line col pos, loads = LoadsOutcome.jsonError msg line col pos) :
    ∃ m, m ≠ "" ∧
      do_POST s "/query" clh loads =
        { status := 500, headers := [ctJson, corsOrigin],
          body := some (JVal.jobj
            [("success", JVal.jbool false), ("error", JVal.jstr m)]) } := by
  rcases h with h | ⟨msg, line, col, pos, h⟩
  · subst h
    refine
      ⟨"int() argument must be a string, a bytes-like object or a real number, not NoneType",
        by decide, ?_⟩
    rfl
  · subst h
    cases hcl : pyIntH clh with
    | error e =>
        refine ⟨e, pyIntH_error_ne hcl, ?_⟩
        simp only [do_POST, tryQueryBody, hcl]
        rfl
    | ok n =>
        refine ⟨strOfJsonError msg line col pos,
          strOfJsonError_ne msg line col pos, ?_⟩
        simp only [do_POST, tryQueryBody, hcl]
        rfl

/-- Witness for C3 at a request with no Content-Length header. -/
theorem C3_malformed_body_500_witness :
    ∃ m, m ≠ "" ∧
      do_POST BoilerAICLIServer.new "/query" none (LoadsOutcome.ok JVal.jnull)
        = { status := 500, headers := [ctJson, corsOrigin],
            body := some (JVal.jobj
              [("success", JVal.jbool false), ("error", JVal.jstr m)]) } :=
  C3_malformed_body_500 BoilerAICLIServer.new none (LoadsOutcome.ok JVal.jnull)
    (Or.inl rfl)

/-- C10: a POST /query body that is valid JSON but no JSON object (a list,
string, number, boolean or null) makes data.get raise, so the handler
answers 500 with a non-empty error, never 200 with a defaulted query. -/
theorem C10_nonobject_body_500 (s : BoilerAICLIServer) (clh : Option String)
    (n : Int) (hcl : pyIntH clh = Except.ok n) (v : JVal)
    (hv : v.isObj = false) :
    ∃ m, m ≠ "" ∧
      do_POST s "/query" clh (LoadsOutcome.ok v) =
        { status := 500, headers := [ctJson, corsOrigin],
          body := some (JVal.jobj
            [("success", JVal.jbool false), ("error", JVal.jstr m)]) } := by
  refine ⟨v.typeName ++ " object has no attribute get",
    str_append_ne_right _ (by decide), ?_⟩
  cases v with
  | jobj fields => simp [JVal.isObj] at hv
  | jnull => simp only [do_POST, tryQueryBody, hcl]; rfl
  | jbool b => simp only [do_POST, tryQueryBody, hcl]; rfl
  | jnum k => simp only [do_POST, tryQueryBody, hcl]; rfl
  | jstr t => simp only [do_POST, tryQueryBody, hcl]; rfl
  | jarr xs => simp only [do_POST, tryQueryBody, hcl]; rfl

/-- Witness for C10 at the JSON array body. -/
theorem C10_nonobject_body_500_witness :
    ∃ m, m ≠ "" ∧
      do_POST BoilerAICLIServer.new "/query" (some "2")
          (LoadsOutcome.ok (JVal.jarr [])) =
        { status := 500, headers := [ctJson, corsOrigin],
          body := some (JVal.jobj
            [("success", JVal.jbool false), ("error", JVal.jstr m)]) } :=
  C10_nonobject_body_500 BoilerAICLIServer.new (some "2") 2 rfl
    (JVal.jarr []) rfl

/-- C4 as stated is false: a valid-JSON body that is not an object is
answered 500, not 200.  Concretely the JSON array body yields status 500. -/
theorem C4_counterexample_array_body :
    (do_POST BoilerAICLIServer.new "/query" (some "2")
        (LoadsOutcome.ok (JVal.jarr []))).status = 500 ∧
    (do_POST BoilerAICLIServer.new "/query" (some "2")
        (LoadsOutcome.ok (JVal.jarr []))).status ≠ 200 :=
  ⟨rfl, by decide⟩

/-- C4 amended: for a POST /query whose body is a valid JSON object whose
query member, when present, is a string, the handler extracts the query
field with default "", passes it to process_query, and answers 200 with
the serialized result. -/
theorem C4_object_body_200 (s : BoilerAICLIServer) (clh : Option String)
    (n : Int) (hcl : pyIntH clh = Except.ok n)
    (fields : List (String × JVal))
    (hq : ∀ v, fields.lookup "query" = some v → ∃ t, v = JVal.jstr t) :
    do_POST s "/query" clh (LoadsOutcome.ok (JVal.jobj fields)) =
      { status := 200, headers := [ctJson, corsOrigin],
        body := some (s.process_query
          ((fields.lookup "query").getD (JVal.jstr ""))) } := by
  have hstr : ∃ t, (fields.lookup "query").getD (JVal.jstr "") =
      JVal.jstr t := by
    cases hl : fields.lookup "query" with
    | none => exact ⟨"", rfl⟩
    | some v =>
        rcases hq v hl with ⟨t, ht⟩
        exact ⟨t, by rw [Option.getD_some, ht]⟩
  rcases hstr with ⟨t, ht⟩
  simp only [do_POST, tryQueryBody, hcl, loadsResult, dictGet, bind,
    Except.bind]
  rw [ht]
  cases hag : s.cli_agent with
  | none =>
      simp only [BoilerAICLIServer.process_query, hag]
      rfl
  | some agent =>
      simp only [BoilerAICLIServer.process_query, hag]
      rfl

/-- Witness for C4 amended at an uninitialized server and the body holding
query = "hi". -/
theorem C4_object_body_200_witness :
    do_POST BoilerAICLIServer.new "/query" (some "9")
        (LoadsOutcome.ok (JVal.jobj [("query", JVal.jstr "hi")])) =
      { status := 200, headers := [ctJson, corsOrigin],
        body := some (BoilerAICLIServer.new.process_query
          ((([("query", JVal.jstr "hi")] : List (String × JVal)).lookup
              "query").getD (JVal.jstr ""))) } :=
  C4_object_body_200 BoilerAICLIServer.new (some "9") 9 rfl
    [("query", JVal.jstr "hi")]
    (fun v hv => ⟨"hi", by
      have h2 : some (JVal.jstr "hi") = some v := hv
      exact (Option.some.inj h2).symm⟩)

/-- C1: after any successful setup (which always stores a non-empty key),
POSTing a body whose query field is the non-empty string q to /query
yields 200 with exactly the envelope success=true, response=q,
provider="gemini", api_key_set=true; and whichever state a process_query
response with success=true comes from, its response field is the query
unchanged. -/
theorem C1_echo_after_setup
    (s0 s : BoilerAICLIServer) (env : String) (stdin : List String)
    (b : Bool) (hsetup : s0.setup_api_key env stdin = some (b, s))
    (q : String) (hq : q ≠ "")
    (clh : Option String) (n : Int) (hcl : pyIntH clh = Except.ok n)
    (s2 : BoilerAICLIServer) (q2 : JVal)
    (hsucc : (s2.process_query q2).lookupJ "success" =
      some (JVal.jbool true)) :
    do_POST s "/query" clh
        (LoadsOutcome.ok (JVal.jobj [("query", JVal.jstr q)])) =
      { status := 200, headers := [ctJson, corsOrigin],
        body := some (JVal.jobj
          [("success", JVal.jbool true),
           ("response", JVal.jstr q),
           ("provider", JVal.jstr "gemini"),
           ("api_key_set", JVal.jbool true)]) } ∧
    (s2.process_query q2).lookupJ "response" = some q2 := by
  obtain ⟨hb, k, hk, hs⟩ := setup_api_key_some hsetup
  subst hs
  constructor
  · have hks : (k != "") = true := bne_iff_ne.mpr hk
    simp only [do_POST, tryQueryBody, hcl, loadsResult, dictGet, bind,
      Except.bind, BoilerAICLIServer.process_query, SimpleBoilerAI.new,
      SimpleBoilerAI.process_query, hks]
    rfl
  · cases hag : s2.cli_agent with
    | none =>
        simp [BoilerAICLIServer.process_query, hag, JVal.lookupJ] at hsucc
    | some agent =>
        simp only [BoilerAICLIServer.process_query, hag,
          SimpleBoilerAI.process_query, JVal.lookupJ]
        rfl

/-- Witness for C1 at env key AIzaSyU, query ping, and the echo invariant
read off the resulting initialized state at query pong. -/
theorem C1_echo_after_setup_witness :
    do_POST
        { api_key := some "AIzaSyU", provider := "gemini",
          cli_agent := some (SimpleBoilerAI.new "AIzaSyU"),
          initialized := true } "/query" (some "13")
        (LoadsOutcome.ok (JVal.jobj [("query", JVal.jstr "ping")])) =
      { status := 200, headers := [ctJson, corsOrigin],
        body := some (JVal.jobj
          [("success", JVal.jbool true),
           ("response", JVal.jstr "ping"),
           ("provider", JVal.jstr "gemini"),
           ("api_key_set", JVal.jbool true)]) } ∧
    (BoilerAICLIServer.process_query
        { api_key := some "AIzaSyU", provider := "gemini",
          cli_agent := some (SimpleBoilerAI.new "AIzaSyU"),
          initialized := true } (JVal.jstr "pong")).lookupJ "response" =
      some (JVal.jstr "pong") :=
  C1_echo_after_setup BoilerAICLIServer.new
    { api_key := some "AIzaSyU", provider := "gemini",
      cli_agent := some (SimpleBoilerAI.new "AIzaSyU"),
      initialized := true }
    "AIzaSyU" [] true rfl "ping" (by decide) (some "13") 13 rfl
    { api_key := some "AIzaSyU", provider := "gemini",
      cli_agent := some (SimpleBoilerAI.new "AIzaSyU"),
      initialized := true }
    (JVal.jstr "pong") rfl

/-- C6 as stated is false: the whitespace-only environment value " " is
set and non-empty, yet setup_api_key strips it to "", falls back to the
interactive prompt and does not succeed with " " as the session key (here
stdin is exhausted, so the operation escapes with EOFError instead of
returning). -/
theorem C6_counterexample_blank_env :
    (" " : String) ≠ "" ∧
    BoilerAICLIServer.new.setup_api_key " " [] = none :=
  ⟨by decide, rfl⟩

/-- C6 amended: when the environment key is non-empty after stripping
whitespace, its stripped value becomes the session key with no prompting;
when it strips to empty, the result is exactly the interactive loop's;
and every successful return carries True and a state with initialized set
and a non-empty key powering the agent. -/
theorem C6_setup_key_success (s : BoilerAICLIServer) (env : String)
    (stdin : List String) (b : Bool) (s' : BoilerAICLIServer) :
    (pyStrip env ≠ "" →
      s.setup_api_key env stdin =
        some (true,
          { s with api_key := some (pyStrip env),
                   cli_agent := some (SimpleBoilerAI.new (pyStrip env)),
                   initialized := true })) ∧
    (pyStrip env = "" →
      s.setup_api_key env stdin =
        (promptLoop s.provider stdin).map (fun k =>
          (true,
            { s with api_key := some k,
                     cli_agent := some (SimpleBoilerAI.new k),
                     initialized := true }))) ∧
    (s.setup_api_key env stdin = some (b, s') →
      b = true ∧ s'.initialized = true ∧
        ∃ k, k ≠ "" ∧ s'.api_key = some k ∧
          s'.cli_agent = some (SimpleBoilerAI.new k)) := by
  refine ⟨?_, ?_, ?_⟩
  · intro he
    have hb : (pyStrip env != "") = true := bne_iff_ne.mpr he
    simp only [BoilerAICLIServer.setup_api_key, hb, if_pos]
  · intro he
    have hb : (pyStrip env != "") = false := by simp [he]
    simp only [BoilerAICLIServer.setup_api_key, hb]
    cases promptLoop s.provider stdin with
    | none => rfl
    | some k => rfl
  · intro hsetup
    obtain ⟨hb, k, hk, hs⟩ := setup_api_key_some hsetup
    subst hs
    exact ⟨hb, rfl, k, hk, rfl, rfl⟩

/-- Witness for C6 amended: the bypass conjunct at the environment key
AIzaSyW with trailing blank, the interactive conjunct at an empty
environment with one stdin line, and the success conjunct at the bypass
input. -/
theorem C6_setup_key_success_witness :
    BoilerAICLIServer.new.setup_api_key "AIzaSyW " [] =
      some (true,
        { api_key := some "AIzaSyW", provider := "gemini",
          cli_agent := some (SimpleBoilerAI.new "AIzaSyW"),
          initialized := true }) ∧
    BoilerAICLIServer.new.setup_api_key "" ["AIzaSyV"] =
      (promptLoop "gemini" ["AIzaSyV"]).map (fun k =>
        (true,
          { api_key := some k, provider := "gemini",
            cli_agent := some (SimpleBoilerAI.new k),
            initialized := true })) ∧
    (true = true ∧ true = true ∧
      ∃ k, k ≠ "" ∧ (some "AIzaSyW" : Option String) = some k ∧
        (some (SimpleBoilerAI.new "AIzaSyW") : Option SimpleBoilerAI) =
          some (SimpleBoilerAI.new k)) :=
  ⟨(C6_setup_key_success BoilerAICLIServer.new "AIzaSyW " [] true
      BoilerAICLIServer.new).1 (by decide),
   (C6_setup_key_success BoilerAICLIServer.new "" ["AIzaSyV"] true
      BoilerAICLIServer.new).2.1 rfl,
   (C6_setup_key_success BoilerAICLIServer.new "AIzaSyW " [] true
      { api_key := some "AIzaSyW", provider := "gemini",
        cli_agent := some (SimpleBoilerAI.new "AIzaSyW"),
        initialized := true }).2.2 rfl⟩
